import Mathlib

/-!
# PhotoShare backend — shallow embedding

Embedding of the two storage variants of the photo-sharing backend:
the document variant (`server.js`, Mongoose models `User`/`Photo`/`Comment`
where a photo embeds a `likes` array) and the relational variant
(MySQL tables `users`, `photos`, `photo_likes`, `comments`).

Ids are modelled as `Nat`; the handlers compare ids with `==`, mirroring
the string comparisons of the source.  Bcrypt hashing/comparison and JWT
signing/verification are opaque parameters.  HTTP request bodies use
`Option String` where the JS destructures a possibly-absent field, and a
present-but-empty string is falsy exactly as in JS (`!text`).
-/

namespace PhotoShare

abbrev UserId := Nat
abbrev PhotoId := Nat

/-! ## JS primitives used by the handlers -/

/-- JS `parseInt(s, 10)`: skip leading whitespace, optional sign, then the
longest prefix of decimal digits; no digits means `NaN` (modelled `none`). -/
def jsParseInt (s : String) : Option Int :=
  let cs := s.toList.dropWhile (fun c => c == ' ' || c == '\t' || c == '\n' || c == '\r')
  let signAndRest : Int × List Char :=
    match cs with
    | '-' :: rest => (-1, rest)
    | '+' :: rest => (1, rest)
    | _ => (1, cs)
  let ds := signAndRest.2.takeWhile Char.isDigit
  if ds.isEmpty then none
  else some (signAndRest.1 * (ds.foldl (fun a c => a * 10 + (c.toNat - 48)) 0 : Nat))

/-- JS `q || dflt` for a query parameter: an absent parameter or an empty
string (both falsy) yield the default string. -/
def queryOrDefault (q : Option String) (dflt : String) : String :=
  match q with
  | none => dflt
  | some v => if v = "" then dflt else v

/-- `parseInt(req.query.page || "1", 10)` -/
def parsePageParam (q : Option String) : Option Int :=
  jsParseInt (queryOrDefault q "1")

/-- `parseInt(req.query.limit || "10", 10)` -/
def parseLimitParam (q : Option String) : Option Int :=
  jsParseInt (queryOrDefault q "10")

/-- Split a character list at every character satisfying `p`, keeping empty
groups (as JS `String.prototype.split` does). -/
def splitCharsBy (p : Char → Bool) : List Char → List (List Char)
  | [] => [[]]
  | c :: cs =>
    match splitCharsBy p cs with
    | [] => [[]]
    | g :: gs => if p c then [] :: g :: gs else (c :: g) :: gs

/-- JS `s.split(" ")`: split at each single space, keeping empty fields. -/
def jsSplitOnSpace (s : String) : List String :=
  (splitCharsBy (fun c => c == ' ') s.toList).map List.asString

/-- Tokens of a string separated by runs of arbitrary whitespace
(empty fields dropped) — the plain-English "whitespace-separated parts". -/
def wsParts (s : String) : List String :=
  ((splitCharsBy Char.isWhitespace s.toList).filter (fun g => !g.isEmpty)).map List.asString

/-! ## Auth middleware (`authRequired`), identical in both variants -/

/-- `authHeader.split(" ")[1]`, with JS's `undefined` (index out of
range) and the empty field both reading back as the falsy `""`. -/
def headerToken (h : String) : String :=
  (jsSplitOnSpace h).getD 1 ""

/-- `authRequired`: takes the second space-separated field of the
Authorization header and verifies it; `verify` abstracts
`jwt.verify(token, JWT_SECRET)` (`none` = invalid/expired token). -/
def authRequired (verify : String → Option UserId) (authHeader : Option String) :
    Except (Nat × String) UserId :=
  match authHeader with
  | none => .error (401, "Hiányzó Authorization header")
  | some h =>
    if h = "" then .error (401, "Hiányzó Authorization header")
    else if headerToken h = "" then .error (401, "Hiányzó token")
    else
      match verify (headerToken h) with
      | none => .error (401, "Érvénytelen token")
      | some uid => .ok uid

/-! ## Document (Mongo) variant: data model -/

structure MUser where
  id : UserId
  username : String
  email : String
  passwordHash : String
  deriving Repr, DecidableEq

structure MPhoto where
  id : PhotoId
  owner : UserId
  url : String
  caption : Option String
  likes : List UserId
  createdAt : Nat
  deriving Repr, DecidableEq

structure MComment where
  id : Nat
  photo : PhotoId
  author : UserId
  text : String
  createdAt : Nat
  deriving Repr, DecidableEq

structure MongoState where
  users : List MUser
  photos : List MPhoto
  comments : List MComment
  nextId : Nat
  now : Nat
  deriving Repr, DecidableEq

def mongoInit : MongoState := ⟨[], [], [], 0, 0⟩

/-- Body of a login response: error message, or token plus user summary. -/
inductive LoginBody where
  | err (msg : String)
  | tok (token : String) (id : UserId) (username email : String)
  deriving Repr, DecidableEq

namespace Mongo

/-- `User.findOne({ $or: [{email}, {username}] })` -/
def findUser (s : MongoState) (ident : String) : Option MUser :=
  s.users.find? (fun u => u.email == ident || u.username == ident)

/-- `Photo.findById(id)` -/
def findPhoto (s : MongoState) (pid : PhotoId) : Option MPhoto :=
  s.photos.find? (fun p => p.id == pid)

/-- `photo.save()`: write the document back by id. -/
def savePhoto (s : MongoState) (p : MPhoto) : MongoState :=
  { s with photos := s.photos.map (fun q => if q.id == p.id then p else q) }

/-- `POST /auth/register` (state after the call, HTTP status). -/
def register (hash : String → String) (s : MongoState)
    (username email password : String) : MongoState × Nat :=
  if username = "" ∨ email = "" ∨ password = "" then (s, 400)
  else if s.users.any (fun u => u.email == email || u.username == username) then
    (s, 409)
  else
    let u : MUser := ⟨s.nextId, username, email, hash password⟩
    ({ s with users := s.users ++ [u], nextId := s.nextId + 1, now := s.now + 1 }, 201)

/-- `POST /auth/login` (status, body); `compare` abstracts `bcrypt.compare`,
`sign` abstracts `jwt.sign({userId}, secret, {expiresIn: "7d"})`. -/
def login (compare : String → String → Bool) (sign : UserId → String)
    (s : MongoState) (ident password : String) : Nat × LoginBody :=
  if ident = "" ∨ password = "" then (400, .err "emailOrUsername és password kötelező")
  else
    match findUser s ident with
    | none => (401, .err "Hibás belépési adatok")
    | some u =>
      if compare password u.passwordHash then (200, .tok (sign u.id) u.id u.username u.email)
      else (401, .err "Hibás belépési adatok")

/-- `POST /photos` after auth: `file` is the multer-provided filename. -/
def uploadPhoto (s : MongoState) (uid : UserId) (file : Option String)
    (caption : Option String) : MongoState × Nat :=
  match file with
  | none => (s, 400)
  | some fname =>
    let p : MPhoto := ⟨s.nextId, uid, "/uploads/" ++ fname, caption, [], s.now⟩
    ({ s with photos := s.photos ++ [p], nextId := s.nextId + 1, now := s.now + 1 }, 201)

/-- `.sort({ createdAt: -1 })`: newest first. -/
def sortByCreatedDesc (ps : List MPhoto) : List MPhoto :=
  ps.mergeSort (fun a b => b.createdAt ≤ a.createdAt)

structure MListResp where
  page : Nat
  limit : Nat
  total : Nat
  items : List MPhoto
  deriving Repr, DecidableEq

/-- `GET /photos` for already-parsed positive `page`/`limit`
(`skip = (page-1)*limit`, newest first, `total = countDocuments()`). -/
def listPhotos (s : MongoState) (page limit : Nat) : MListResp :=
  let skip := (page - 1) * limit
  ⟨page, limit, s.photos.length, ((sortByCreatedDesc s.photos).drop skip).take limit⟩

/-- `GET /photos/:id` -/
def getPhoto (s : MongoState) (pid : PhotoId) : Except (Nat × String) MPhoto :=
  match findPhoto s pid with
  | none => .error (404, "Fotó nem található")
  | some p => .ok p

/-- `POST /photos/:id/like` after auth: push the user id onto `likes`
unless already present, save, and answer with `photo.likes.length`. -/
def likePhoto (s : MongoState) (pid : PhotoId) (uid : UserId) :
    Except (Nat × String) (MongoState × Nat) :=
  match findPhoto s pid with
  | none => .error (404, "Fotó nem található")
  | some photo =>
    let hasLiked := photo.likes.any (fun w => w == uid)
    if hasLiked then .ok (s, photo.likes.length)
    else
      let photo' : MPhoto := { photo with likes := photo.likes ++ [uid] }
      .ok (savePhoto s photo', photo'.likes.length)

/-- `DELETE /photos/:id/like` after auth: filter the user id out of
`likes`, save, and answer with the new length; 404 when the photo is
absent. -/
def unlikePhoto (s : MongoState) (pid : PhotoId) (uid : UserId) :
    Except (Nat × String) (MongoState × Nat) :=
  match findPhoto s pid with
  | none => .error (404, "Fotó nem található")
  | some photo =>
    let photo' : MPhoto := { photo with likes := photo.likes.filter (fun w => w != uid) }
    .ok (savePhoto s photo', photo'.likes.length)

/-- `POST /photos/:id/comments` after auth (state after the call, result). -/
def createComment (s : MongoState) (pid : PhotoId) (uid : UserId)
    (text : Option String) : MongoState × Except (Nat × String) MComment :=
  match text with
  | none => (s, .error (400, "text kötelező"))
  | some t =>
    if t = "" then (s, .error (400, "text kötelező"))
    else
      match findPhoto s pid with
      | none => (s, .error (404, "Fotó nem található"))
      | some photo =>
        let c : MComment := ⟨s.nextId, photo.id, uid, t, s.now⟩
        ({ s with comments := s.comments ++ [c], nextId := s.nextId + 1, now := s.now + 1 },
          .ok c)

/-- `GET /photos/:id/comments`: comments of the photo, oldest first. -/
def listComments (s : MongoState) (pid : PhotoId) : List MComment :=
  (s.comments.filter (fun c => c.photo == pid)).mergeSort
    (fun a b => a.createdAt ≤ b.createdAt)

end Mongo

/-! ## Relational (MySQL) variant: data model -/

structure SUser where
  id : UserId
  username : String
  email : String
  passwordHash : String
  deriving Repr, DecidableEq

structure SPhoto where
  id : PhotoId
  ownerId : UserId
  url : String
  caption : Option String
  createdAt : Nat
  deriving Repr, DecidableEq

structure SComment where
  id : Nat
  photoId : PhotoId
  authorId : UserId
  text : String
  createdAt : Nat
  deriving Repr, DecidableEq

/-- Relational store: `users`, `photos`, `photo_likes` (rows of
`(photo_id, user_id)` with a unique key on the pair), `comments`;
`next*Id` model the per-table AUTO_INCREMENT counters. -/
structure SqlState where
  users : List SUser
  photos : List SPhoto
  photoLikes : List (PhotoId × UserId)
  comments : List SComment
  nextUserId : Nat
  nextPhotoId : Nat
  nextCommentId : Nat
  now : Nat
  deriving Repr, DecidableEq

def sqlInit : SqlState := ⟨[], [], [], [], 1, 1, 1, 0⟩

/-- A comment row joined with its author (`authorUsername`, `authorEmail`). -/
structure SEnrichedComment where
  id : Nat
  text : String
  createdAt : Nat
  authorId : UserId
  authorUsername : String
  authorEmail : String
  deriving Repr, DecidableEq

namespace Sql

/-- `SELECT ... FROM users WHERE email = ? OR username = ? LIMIT 1` -/
def findUser (s : SqlState) (ident : String) : Option SUser :=
  s.users.find? (fun u => u.email == ident || u.username == ident)

/-- `SELECT id FROM photos WHERE id = ?` (nonempty result). -/
def photoExists (s : SqlState) (pid : PhotoId) : Bool :=
  s.photos.any (fun p => p.id == pid)

/-- `SELECT COUNT(*) FROM photo_likes WHERE photo_id = ?` -/
def likesCount (s : SqlState) (pid : PhotoId) : Nat :=
  (s.photoLikes.filter (fun r => r.1 == pid)).length

/-- `POST /auth/register` (state after the call, HTTP status). -/
def register (hash : String → String) (s : SqlState)
    (username email password : String) : SqlState × Nat :=
  if username = "" ∨ email = "" ∨ password = "" then (s, 400)
  else if s.users.any (fun u => u.email == email || u.username == username) then
    (s, 409)
  else
    let u : SUser := ⟨s.nextUserId, username, email, hash password⟩
    ({ s with users := s.users ++ [u], nextUserId := s.nextUserId + 1, now := s.now + 1 },
      201)

/-- `POST /auth/login` (status, body). -/
def login (compare : String → String → Bool) (sign : UserId → String)
    (s : SqlState) (ident password : String) : Nat × LoginBody :=
  if ident = "" ∨ password = "" then (400, .err "emailOrUsername és password kötelező")
  else
    match findUser s ident with
    | none => (401, .err "Hibás belépési adatok")
    | some u =>
      if compare password u.passwordHash then (200, .tok (sign u.id) u.id u.username u.email)
      else (401, .err "Hibás belépési adatok")

/-- `POST /photos` after auth. -/
def uploadPhoto (s : SqlState) (uid : UserId) (file : Option String)
    (caption : Option String) : SqlState × Nat :=
  match file with
  | none => (s, 400)
  | some fname =>
    let p : SPhoto := ⟨s.nextPhotoId, uid, "/uploads/" ++ fname, caption, s.now⟩
    ({ s with photos := s.photos ++ [p], nextPhotoId := s.nextPhotoId + 1, now := s.now + 1 },
      201)

/-- `ORDER BY p.created_at DESC` -/
def sortByCreatedDesc (ps : List SPhoto) : List SPhoto :=
  ps.mergeSort (fun a b => b.createdAt ≤ a.createdAt)

structure SListResp where
  page : Nat
  limit : Nat
  total : Nat
  items : List (SPhoto × Nat)
  deriving Repr, DecidableEq

/-- `GET /photos` for already-parsed positive `page`/`limit`: newest
first, `LIMIT ? OFFSET ?` with `offset = (page-1)*limit`, each row
carrying its correlated-subquery like count; `total` from
`SELECT COUNT(*) FROM photos`. -/
def listPhotos (s : SqlState) (page limit : Nat) : SListResp :=
  let offset := (page - 1) * limit
  let rows := ((sortByCreatedDesc s.photos).drop offset).take limit
  ⟨page, limit, s.photos.length, rows.map (fun p => (p, likesCount s p.id))⟩

/-- `POST /photos/:id/like` after auth: existence check, then
`INSERT IGNORE INTO photo_likes`, then the count. -/
def likePhoto (s : SqlState) (pid : PhotoId) (uid : UserId) :
    Except (Nat × String) (SqlState × Nat) :=
  if photoExists s pid then
    let s' :=
      if s.photoLikes.any (fun r => r.1 == pid && r.2 == uid) then s
      else { s with photoLikes := s.photoLikes ++ [(pid, uid)] }
    .ok (s', likesCount s' pid)
  else .error (404, "Fotó nem található")

/-- `DELETE /photos/:id/like` after auth: no existence check —
`DELETE FROM photo_likes WHERE photo_id = ? AND user_id = ?` then the
count; never fails. -/
def unlikePhoto (s : SqlState) (pid : PhotoId) (uid : UserId) : SqlState × Nat :=
  let s' := { s with photoLikes := s.photoLikes.filter (fun r => !(r.1 == pid && r.2 == uid)) }
  (s', likesCount s' pid)

/-- `POST /photos/:id/comments` after auth: the result of the success
path is the inserted row joined with its author (`none` when the join
finds no user row). -/
def createComment (s : SqlState) (pid : PhotoId) (uid : UserId)
    (text : Option String) : SqlState × Except (Nat × String) (Option SEnrichedComment) :=
  match text with
  | none => (s, .error (400, "text kötelező"))
  | some t =>
    if t = "" then (s, .error (400, "text kötelező"))
    else if photoExists s pid then
      let c : SComment := ⟨s.nextCommentId, pid, uid, t, s.now⟩
      let s' : SqlState :=
        { s with comments := s.comments ++ [c], nextCommentId := s.nextCommentId + 1,
                 now := s.now + 1 }
      let enriched := (s'.users.find? (fun u => u.id == uid)).map
        (fun u => SEnrichedComment.mk c.id c.text c.createdAt u.id u.username u.email)
      (s', .ok enriched)
    else (s, .error (404, "Fotó nem található"))

/-- `GET /photos/:id/comments`: join with authors, oldest first; a
comment whose author row is missing is dropped by the inner join. -/
def listComments (s : SqlState) (pid : PhotoId) : List SEnrichedComment :=
  ((s.comments.filter (fun c => c.photoId == pid)).mergeSort
      (fun a b => a.createdAt ≤ b.createdAt)).filterMap
    (fun c => (s.users.find? (fun u => u.id == c.authorId)).map
      (fun u => SEnrichedComment.mk c.id c.text c.createdAt u.id u.username u.email))

end Sql

/-! ## Operation sequences (for reachable-state invariants) -/

/-- One inbound API call (reads included; they leave the store as is). -/
inductive Op where
  | register (username email password : String)
  | login (ident password : String)
  | upload (uid : UserId) (file : Option String) (caption : Option String)
  | listPhotos (page limit : Nat)
  | getPhoto (pid : PhotoId)
  | like (pid : PhotoId) (uid : UserId)
  | unlike (pid : PhotoId) (uid : UserId)
  | comment (pid : PhotoId) (uid : UserId) (text : Option String)
  | listComments (pid : PhotoId)

def Mongo.step (hash : String → String) (s : MongoState) : Op → MongoState
  | .register u e p => (Mongo.register hash s u e p).1
  | .login _ _ => s
  | .upload uid f c => (Mongo.uploadPhoto s uid f c).1
  | .listPhotos _ _ => s
  | .getPhoto _ => s
  | .like pid uid =>
    match Mongo.likePhoto s pid uid with
    | .ok (s', _) => s'
    | .error _ => s
  | .unlike pid uid =>
    match Mongo.unlikePhoto s pid uid with
    | .ok (s', _) => s'
    | .error _ => s
  | .comment pid uid t => (Mongo.createComment s pid uid t).1
  | .listComments _ => s

def Mongo.run (hash : String → String) (s : MongoState) : List Op → MongoState
  | [] => s
  | op :: ops => Mongo.run hash (Mongo.step hash s op) ops

def Sql.step (hash : String → String) (s : SqlState) : Op → SqlState
  | .register u e p => (Sql.register hash s u e p).1
  | .login _ _ => s
  | .upload uid f c => (Sql.uploadPhoto s uid f c).1
  | .listPhotos _ _ => s
  | .getPhoto _ => s
  | .like pid uid =>
    match Sql.likePhoto s pid uid with
    | .ok (s', _) => s'
    | .error _ => s
  | .unlike pid uid => (Sql.unlikePhoto s pid uid).1
  | .comment pid uid t => (Sql.createComment s pid uid t).1
  | .listComments _ => s

def Sql.run (hash : String → String) (s : SqlState) : List Op → SqlState
  | [] => s
  | op :: ops => Sql.run hash (Sql.step hash s op) ops

/-- Document-variant invariant: no photo's `likes` array repeats a user id. -/
def Mongo.likesNodup (s : MongoState) : Prop :=
  ∀ p ∈ s.photos, p.likes.Nodup

/-- Relational-variant invariant: no duplicate `(photo_id, user_id)` row. -/
def Sql.likesNodup (s : SqlState) : Prop :=
  s.photoLikes.Nodup

/-! ## Full routes for the unlike endpoint (auth middleware included) -/

/-- Mongo variant, `DELETE /photos/:id/like` end to end:
(state after the call, HTTP status, `likesCount` payload if 200). -/
def Mongo.routeUnlike (verify : String → Option UserId) (hdr : Option String)
    (s : MongoState) (pid : PhotoId) : MongoState × Nat × Option Nat :=
  match authRequired verify hdr with
  | .error (st, _) => (s, st, none)
  | .ok uid =>
    match Mongo.unlikePhoto s pid uid with
    | .error (st, _) => (s, st, none)
    | .ok (s', n) => (s', 200, some n)

/-- Relational variant, `DELETE /photos/:id/like` end to end. -/
def Sql.routeUnlike (verify : String → Option UserId) (hdr : Option String)
    (t : SqlState) (pid : PhotoId) : SqlState × Nat × Option Nat :=
  match authRequired verify hdr with
  | .error (st, _) => (t, st, none)
  | .ok uid =>
    let r := Sql.unlikePhoto t pid uid
    (r.1, 200, some r.2)

/-! ## Spec-side reading of the auth guard (for refinement comparison)

The guard claim speaks of "at least two whitespace-separated parts" of the
Authorization header; this predicate renders that wording (tokens separated
by runs of arbitrary whitespace), to be compared against `authRequired`,
which is translated from the source (`header.split(" ")[1]`). -/

/-- Acceptance condition as the claim words it: the header exists, splits
into ≥ 2 whitespace-separated parts, and the second part verifies. -/
def claimAuthAccepts (verify : String → Option UserId) (authHeader : Option String) : Bool :=
  match authHeader with
  | none => false
  | some h =>
    decide (2 ≤ (wsParts h).length) && (verify ((wsParts h).getD 1 "")).isSome

/-! ## Concrete sample data for witnesses and counterexamples -/

/-- A token validator accepting exactly the token `"tok"` as user 0
(a stand-in for `jwt.verify` with one valid unexpired token). -/
def sampleVerify : String → Option UserId :=
  fun t => if t = "tok" then some 0 else none

def samplePhoto : MPhoto := ⟨1, 0, "/uploads/x.jpg", none, [], 0⟩

/-- One user (id 0), one photo (id 1) with no likes, no comments. -/
def sampleMongo : MongoState :=
  ⟨[⟨0, "alice", "a@x.com", "h"⟩], [samplePhoto], [], 2, 1⟩

/-- One user (id 1), one photo (id 1) with no likes, no comments. -/
def sampleSql : SqlState :=
  ⟨[⟨1, "alice", "a@x.com", "h"⟩], [⟨1, 1, "/uploads/x.jpg", none, 0⟩], [], [], 2, 2, 1, 1⟩

/-- `sampleMongo` after user 0 likes photo 1. -/
def sampleMongoLiked : MongoState :=
  ⟨[⟨0, "alice", "a@x.com", "h"⟩], [⟨1, 0, "/uploads/x.jpg", none, [0], 0⟩], [], 2, 1⟩

/-- `sampleMongo` with the author's identity changed to `carol`. -/
def sampleMongoOtherUser : MongoState :=
  ⟨[⟨0, "carol", "c@x.com", "h"⟩], [samplePhoto], [], 2, 1⟩

/-- `sampleSql` with the author's identity changed to `carol`. -/
def sampleSqlOtherUser : SqlState :=
  ⟨[⟨1, "carol", "c@x.com", "h"⟩], [⟨1, 1, "/uploads/x.jpg", none, 0⟩], [], [], 2, 2, 1, 1⟩

/-- A Mongo store with ten photos, ids 0–9, photo `i` created at time `i`. -/
def tenMongo : MongoState :=
  ⟨[], (List.range 10).map (fun i => ⟨i, 0, "/uploads/p", none, [], i⟩), [], 10, 10⟩

/-- A relational store with ten photos, ids 0–9, photo `i` created at time `i`. -/
def tenSql : SqlState :=
  ⟨[], (List.range 10).map (fun i => ⟨i, 0, "/uploads/p", none, i⟩), [], [], 1, 11, 1, 10⟩

/-- Concrete stand-in for `bcrypt.hash`. -/
def sampleHash : String → String := fun _ => "h"

/-- Concrete stand-in for a `bcrypt.compare` that rejects the attempt. -/
def sampleCompare : String → String → Bool := fun _ _ => false

/-- Concrete stand-in for `jwt.sign`. -/
def sampleSign : UserId → String := fun _ => "t"

/-! ## Helper lemmas -/

theorem findPhoto_id_eq (s : MongoState) (pid : PhotoId) (photo : MPhoto)
    (h : Mongo.findPhoto s pid = some photo) : photo.id = pid := by
  have := List.find?_some h
  simpa using this

theorem findPhoto_mem (s : MongoState) (pid : PhotoId) (photo : MPhoto)
    (h : Mongo.findPhoto s pid = some photo) : photo ∈ s.photos :=
  List.mem_of_find?_eq_some h

theorem find?_map_save (l : List MPhoto) (pid : PhotoId) (photo p' : MPhoto)
    (hid : p'.id = pid)
    (h : l.find? (fun p => p.id == pid) = some photo) :
    (l.map (fun q => if q.id == p'.id then p' else q)).find? (fun p => p.id == pid)
      = some p' := by
  induction l with
  | nil => simp at h
  | cons a l ih =>
    by_cases ha : a.id = pid
    · have hcond : (a.id == p'.id) = true := by simp [ha, hid]
      simp only [List.map_cons, hcond, if_true]
      exact List.find?_cons_of_pos _ (by simp [hid])
    · have hcond : (a.id == p'.id) = false := by simp [hid]; exact ha
      have hpred : (a.id == pid) = false := by simp [ha]
      rw [List.find?_cons_of_neg _ (by simp [ha])] at h
      simp only [List.map_cons]
      rw [if_neg (by simp [hid]; exact ha)]
      rw [List.find?_cons_of_neg _ (by simp [ha])]
      exact ih h

theorem findPhoto_savePhoto (s : MongoState) (pid : PhotoId) (photo p' : MPhoto)
    (hfind : Mongo.findPhoto s pid = some photo) (hid : p'.id = pid) :
    Mongo.findPhoto (Mongo.savePhoto s p') pid = some p' :=
  find?_map_save s.photos pid photo p' hid hfind

theorem mem_savePhoto (s : MongoState) (p' q : MPhoto)
    (hq : q ∈ (Mongo.savePhoto s p').photos) : q = p' ∨ q ∈ s.photos := by
  unfold Mongo.savePhoto at hq
  simp only [List.mem_map] at hq
  obtain ⟨x, hx, hfx⟩ := hq
  by_cases hxi : x.id = p'.id
  · left
    rw [← hfx]
    simp [hxi]
  · right
    rw [← hfx]
    simpa [hxi] using hx

theorem not_mem_of_any_beq_false {l : List Nat} {uid : Nat}
    (h : l.any (fun w => w == uid) = false) : uid ∉ l := by
  intro hm
  have : l.any (fun w => w == uid) = true := List.any_eq_true.mpr ⟨uid, hm, by simp⟩
  rw [h] at this
  exact Bool.false_ne_true this

theorem nodup_append_singleton {α : Type} {l : List α} {a : α}
    (h : l.Nodup) (ha : a ∉ l) : (l ++ [a]).Nodup := by
  simp [List.nodup_append, h, ha]

theorem mongo_like_again (s : MongoState) (pid : PhotoId) (uid : UserId)
    (s' : MongoState) (n : Nat)
    (h : Mongo.likePhoto s pid uid = .ok (s', n)) :
    Mongo.likePhoto s' pid uid = .ok (s', n) := by
  unfold Mongo.likePhoto at h ⊢
  cases hfind : Mongo.findPhoto s pid with
  | none => simp [hfind] at h
  | some photo =>
    have hid := findPhoto_id_eq s pid photo hfind
    simp only [hfind] at h
    by_cases hl : photo.likes.any (fun w => w == uid) = true
    · rw [if_pos hl] at h
      simp only [Except.ok.injEq, Prod.mk.injEq] at h
      obtain ⟨rfl, rfl⟩ := h
      simp [hfind, hl]
    · rw [if_neg hl] at h
      simp only [Except.ok.injEq, Prod.mk.injEq] at h
      obtain ⟨rfl, rfl⟩ := h
      have hfind' := findPhoto_savePhoto s pid photo
        { photo with likes := photo.likes ++ [uid] } hfind hid
      simp [hfind']

theorem sql_like_again (t : SqlState) (pid : PhotoId) (uid : UserId)
    (t' : SqlState) (m : Nat)
    (h : Sql.likePhoto t pid uid = .ok (t', m)) :
    Sql.likePhoto t' pid uid = .ok (t', m) := by
  unfold Sql.likePhoto at h ⊢
  by_cases hex : Sql.photoExists t pid = true
  · rw [if_pos hex] at h
    by_cases hc : t.photoLikes.any (fun r => r.1 == pid && r.2 == uid) = true
    · rw [if_pos hc] at h
      simp only [Except.ok.injEq, Prod.mk.injEq] at h
      obtain ⟨rfl, rfl⟩ := h
      rw [if_pos hex, if_pos hc]
    · rw [if_neg hc] at h
      simp only [Except.ok.injEq, Prod.mk.injEq] at h
      obtain ⟨rfl, rfl⟩ := h
      have hex' : Sql.photoExists
          { t with photoLikes := t.photoLikes ++ [(pid, uid)] } pid = true := hex
      rw [if_pos hex']
      have hc' : ({ t with photoLikes := t.photoLikes ++ [(pid, uid)] } : SqlState).photoLikes.any
          (fun r => r.1 == pid && r.2 == uid) = true := by simp
      rw [if_pos hc']
  · rw [if_neg hex] at h
    simp at h

/-- C1: for a stored photo, liking it twice with the same `(photoId, userId)`
gives the same final state and `likesCount` as liking it once, in both
variants; and from a photo with no likes, a like returns `likesCount = 1`. -/
theorem likePhoto_idempotent (s : MongoState) (t : SqlState)
    (pid : PhotoId) (uid : UserId) :
    (∀ s' n, Mongo.likePhoto s pid uid = .ok (s', n) →
      Mongo.likePhoto s' pid uid = .ok (s', n)) ∧
    (∀ t' m, Sql.likePhoto t pid uid = .ok (t', m) →
      Sql.likePhoto t' pid uid = .ok (t', m)) ∧
    (∀ photo, Mongo.findPhoto s pid = some photo → photo.likes = [] →
      ∃ s', Mongo.likePhoto s pid uid = .ok (s', 1)) ∧
    (Sql.photoExists t pid = true → Sql.likesCount t pid = 0 →
      ∃ t', Sql.likePhoto t pid uid = .ok (t', 1)) := by
  refine ⟨fun s' n h => mongo_like_again s pid uid s' n h,
          fun t' m h => sql_like_again t pid uid t' m h, ?_, ?_⟩
  · intro photo hfind hempty
    refine ⟨Mongo.savePhoto s { photo with likes := photo.likes ++ [uid] }, ?_⟩
    unfold Mongo.likePhoto
    simp [hfind, hempty]
  · intro hex hcount
    refine ⟨{ t with photoLikes := t.photoLikes ++ [(pid, uid)] }, ?_⟩
    unfold Sql.likePhoto
    rw [if_pos hex]
    have hnone : ∀ r ∈ t.photoLikes, (r.1 == pid) = false := by
      intro r hr
      by_contra hne
      have h1 : (r.1 == pid) = true := by
        cases h2 : (r.1 == pid) with
        | true => rfl
        | false => exact absurd h2 hne
      have : r ∈ t.photoLikes.filter (fun r => r.1 == pid) :=
        List.mem_filter.mpr ⟨hr, h1⟩
      have hlen : 0 < (t.photoLikes.filter (fun r => r.1 == pid)).length :=
        List.length_pos.mpr (List.ne_nil_of_mem this)
      unfold Sql.likesCount at hcount
      omega
    have hc : t.photoLikes.any (fun r => r.1 == pid && r.2 == uid) = false := by
      rw [List.any_eq_false]
      intro r hr
      simp [hnone r hr]
    have hfil : t.photoLikes.filter (fun r => r.1 == pid) = [] := by
      rw [List.filter_eq_nil_iff]
      intro r hr
      simp [hnone r hr]
    simp [hc, Sql.likesCount, hfil]

/-- Witness for C1: concrete double like in the document store (second call
is a no-op at count 1) and a like from zero in the relational store. -/
theorem likePhoto_idempotent_witness :
    Mongo.likePhoto sampleMongoLiked 1 0 = .ok (sampleMongoLiked, 1) ∧
    (∃ t', Sql.likePhoto sampleSql 1 1 = .ok (t', 1)) :=
  ⟨(likePhoto_idempotent sampleMongo sampleSql 1 0).1 sampleMongoLiked 1 (by rfl),
   (likePhoto_idempotent sampleMongo sampleSql 1 1).2.2.2 (by decide) (by decide)⟩

theorem likesNodup_of_photos_eq {s s' : MongoState} (hp : s'.photos = s.photos)
    (h : Mongo.likesNodup s) : Mongo.likesNodup s' := by
  intro p hm
  exact h p (hp ▸ hm)

theorem mongo_register_photos (hash : String → String) (s : MongoState)
    (u e p : String) : (Mongo.register hash s u e p).1.photos = s.photos := by
  unfold Mongo.register
  split
  · rfl
  · split <;> rfl

theorem mongo_comment_photos (s : MongoState) (pid : PhotoId) (uid : UserId)
    (t : Option String) : (Mongo.createComment s pid uid t).1.photos = s.photos := by
  unfold Mongo.createComment
  cases t with
  | none => rfl
  | some tx =>
    by_cases h : tx = ""
    · simp [h]
    · simp only [if_neg h]
      cases hfind : Mongo.findPhoto s pid <;> simp [hfind]

theorem mongo_upload_nodup (s : MongoState) (uid : UserId)
    (f caption : Option String) (h : Mongo.likesNodup s) :
    Mongo.likesNodup (Mongo.uploadPhoto s uid f caption).1 := by
  unfold Mongo.uploadPhoto
  cases f with
  | none => exact h
  | some fname =>
    intro p hm
    simp only [List.mem_append, List.mem_singleton] at hm
    rcases hm with hm | rfl
    · exact h p hm
    · exact List.nodup_nil

theorem mongo_like_ok_nodup (s : MongoState) (pid : PhotoId) (uid : UserId)
    (s' : MongoState) (n : Nat) (hok : Mongo.likePhoto s pid uid = .ok (s', n))
    (h : Mongo.likesNodup s) : Mongo.likesNodup s' := by
  unfold Mongo.likePhoto at hok
  cases hfind : Mongo.findPhoto s pid with
  | none => simp [hfind] at hok
  | some photo =>
    simp only [hfind] at hok
    by_cases hl : photo.likes.any (fun w => w == uid) = true
    · rw [if_pos hl] at hok
      simp only [Except.ok.injEq, Prod.mk.injEq] at hok
      obtain ⟨rfl, -⟩ := hok
      exact h
    · rw [if_neg hl] at hok
      simp only [Except.ok.injEq, Prod.mk.injEq] at hok
      obtain ⟨rfl, -⟩ := hok
      intro p hm
      rcases mem_savePhoto s _ p hm with rfl | hp
      · have huid : uid ∉ photo.likes := by
          intro hm
          exact hl (List.any_eq_true.mpr ⟨uid, hm, by simp⟩)
        exact nodup_append_singleton (h photo (findPhoto_mem s pid photo hfind)) huid
      · exact h p hp

theorem mongo_unlike_ok_nodup (s : MongoState) (pid : PhotoId) (uid : UserId)
    (s' : MongoState) (n : Nat) (hok : Mongo.unlikePhoto s pid uid = .ok (s', n))
    (h : Mongo.likesNodup s) : Mongo.likesNodup s' := by
  unfold Mongo.unlikePhoto at hok
  cases hfind : Mongo.findPhoto s pid with
  | none => simp [hfind] at hok
  | some photo =>
    simp only [hfind] at hok
    simp only [Except.ok.injEq, Prod.mk.injEq] at hok
    obtain ⟨rfl, -⟩ := hok
    intro p hm
    rcases mem_savePhoto s _ p hm with rfl | hp
    · exact (h photo (findPhoto_mem s pid photo hfind)).filter _
    · exact h p hp

theorem mongo_step_nodup (hash : String → String) (s : MongoState) (op : Op)
    (h : Mongo.likesNodup s) : Mongo.likesNodup (Mongo.step hash s op) := by
  cases op with
  | register u e p =>
    exact likesNodup_of_photos_eq (mongo_register_photos hash s u e p) h
  | login _ _ => exact h
  | upload uid f c => exact mongo_upload_nodup s uid f c h
  | listPhotos _ _ => exact h
  | getPhoto _ => exact h
  | like pid uid =>
    simp only [Mongo.step]
    cases hok : Mongo.likePhoto s pid uid with
    | ok r => exact mongo_like_ok_nodup s pid uid r.1 r.2 (by rw [hok]) h
    | error e => exact h
  | unlike pid uid =>
    simp only [Mongo.step]
    cases hok : Mongo.unlikePhoto s pid uid with
    | ok r => exact mongo_unlike_ok_nodup s pid uid r.1 r.2 (by rw [hok]) h
    | error e => exact h
  | comment pid uid t =>
    exact likesNodup_of_photos_eq (mongo_comment_photos s pid uid t) h
  | listComments _ => exact h

theorem mongo_run_nodup (hash : String → String) (ops : List Op) (s : MongoState)
    (h : Mongo.likesNodup s) : Mongo.likesNodup (Mongo.run hash s ops) := by
  induction ops generalizing s with
  | nil => exact h
  | cons op ops ih => exact ih _ (mongo_step_nodup hash s op h)

theorem sql_register_photoLikes (hash : String → String) (t : SqlState)
    (u e p : String) : (Sql.register hash t u e p).1.photoLikes = t.photoLikes := by
  unfold Sql.register
  split
  · rfl
  · split <;> rfl

theorem sql_upload_photoLikes (t : SqlState) (uid : UserId)
    (f caption : Option String) : (Sql.uploadPhoto t uid f caption).1.photoLikes = t.photoLikes := by
  unfold Sql.uploadPhoto
  cases f <;> rfl

theorem sql_comment_photoLikes (t : SqlState) (pid : PhotoId) (uid : UserId)
    (tx : Option String) : (Sql.createComment t pid uid tx).1.photoLikes = t.photoLikes := by
  unfold Sql.createComment
  cases tx with
  | none => rfl
  | some x =>
    by_cases h : x = ""
    · simp [h]
    · simp only [if_neg h]
      by_cases he : Sql.photoExists t pid = true <;> simp [he]

theorem sqlNodup_of_photoLikes_eq {t t' : SqlState}
    (hp : t'.photoLikes = t.photoLikes) (h : Sql.likesNodup t) : Sql.likesNodup t' := by
  unfold Sql.likesNodup at *
  rw [hp]
  exact h

theorem sql_like_ok_nodup (t : SqlState) (pid : PhotoId) (uid : UserId)
    (t' : SqlState) (m : Nat) (hok : Sql.likePhoto t pid uid = .ok (t', m))
    (h : Sql.likesNodup t) : Sql.likesNodup t' := by
  unfold Sql.likePhoto at hok
  by_cases hex : Sql.photoExists t pid = true
  · rw [if_pos hex] at hok
    by_cases hc : t.photoLikes.any (fun r => r.1 == pid && r.2 == uid) = true
    · rw [if_pos hc] at hok
      simp only [Except.ok.injEq, Prod.mk.injEq] at hok
      obtain ⟨rfl, -⟩ := hok
      exact h
    · rw [if_neg hc] at hok
      simp only [Except.ok.injEq, Prod.mk.injEq] at hok
      obtain ⟨rfl, -⟩ := hok
      have hmem : (pid, uid) ∉ t.photoLikes := by
        intro hm
        have : t.photoLikes.any (fun r => r.1 == pid && r.2 == uid) = true :=
          List.any_eq_true.mpr ⟨(pid, uid), hm, by simp⟩
        exact hc this
      exact nodup_append_singleton h hmem
  · rw [if_neg hex] at hok
    simp at hok

theorem sql_step_nodup (hash : String → String) (t : SqlState) (op : Op)
    (h : Sql.likesNodup t) : Sql.likesNodup (Sql.step hash t op) := by
  cases op with
  | register u e p =>
    exact sqlNodup_of_photoLikes_eq (sql_register_photoLikes hash t u e p) h
  | login _ _ => exact h
  | upload uid f c => exact sqlNodup_of_photoLikes_eq (sql_upload_photoLikes t uid f c) h
  | listPhotos _ _ => exact h
  | getPhoto _ => exact h
  | like pid uid =>
    simp only [Sql.step]
    cases hok : Sql.likePhoto t pid uid with
    | ok r => exact sql_like_ok_nodup t pid uid r.1 r.2 (by rw [hok]) h
    | error e => exact h
  | unlike pid uid =>
    simp only [Sql.step, Sql.unlikePhoto]
    exact h.filter _
  | comment pid uid tx =>
    exact sqlNodup_of_photoLikes_eq (sql_comment_photoLikes t pid uid tx) h
  | listComments _ => exact h

theorem sql_run_nodup (hash : String → String) (ops : List Op) (t : SqlState)
    (h : Sql.likesNodup t) : Sql.likesNodup (Sql.run hash t ops) := by
  induction ops generalizing t with
  | nil => exact h
  | cons op ops ih => exact ih _ (sql_step_nodup hash t op h)

/-- C2: in every state reachable from the empty store by any sequence of
API operations, each `(userId, photoId)` pair has at most one Like: no
photo's `likes` array repeats a user id (document variant) and no
`(photo_id, user_id)` row repeats (relational variant). -/
theorem like_uniqueness_invariant (hash : String → String) (ops : List Op) :
    Mongo.likesNodup (Mongo.run hash mongoInit ops) ∧
    Sql.likesNodup (Sql.run hash sqlInit ops) :=
  ⟨mongo_run_nodup hash ops mongoInit (by intro p hm; simp [mongoInit] at hm),
   sql_run_nodup hash ops sqlInit (by simp [Sql.likesNodup, sqlInit])⟩

/-- C3: unliking a stored photo that the user never liked succeeds, leaves
the photo's like count unchanged, and returns that unchanged count — in the
document variant via a no-op filter of the `likes` array, in the relational
variant via a `DELETE` matching no row (full state unchanged). -/
theorem unlike_not_liked
    (s : MongoState) (t : SqlState) (pid : PhotoId) (uid : UserId) (photo : MPhoto)
    (hfind : Mongo.findPhoto s pid = some photo)
    (hnm : uid ∉ photo.likes)
    (hnp : (pid, uid) ∉ t.photoLikes) :
    Mongo.unlikePhoto s pid uid = .ok (Mongo.savePhoto s photo, photo.likes.length) ∧
    Mongo.findPhoto (Mongo.savePhoto s photo) pid = some photo ∧
    Sql.unlikePhoto t pid uid = (t, Sql.likesCount t pid) := by
  have hfl : photo.likes.filter (fun w => w != uid) = photo.likes := by
    rw [List.filter_eq_self]
    intro w hw
    simp only [bne_iff_ne, ne_eq, decide_eq_true_eq]
    intro hwu
    exact hnm (hwu ▸ hw)
  have hphoto' : ({ photo with likes := photo.likes.filter (fun w => w != uid) } : MPhoto)
      = photo := by
    rw [hfl]
  refine ⟨?_, ?_, ?_⟩
  · unfold Mongo.unlikePhoto
    simp only [hfind]
    rw [hphoto', hfl]
  · exact findPhoto_savePhoto s pid photo photo hfind (findPhoto_id_eq s pid photo hfind)
  · unfold Sql.unlikePhoto
    have hfl2 : t.photoLikes.filter (fun r => !(r.1 == pid && r.2 == uid)) = t.photoLikes := by
      rw [List.filter_eq_self]
      intro r hr
      simp only [Bool.not_eq_true', Bool.and_eq_false_iff, beq_eq_false_iff_ne, ne_eq]
      by_contra hcon
      push_neg at hcon
      have hreq : r = (pid, uid) := Prod.ext hcon.1 hcon.2
      exact hnp (hreq ▸ hr)
    rw [hfl2]

/-- Witness for C3: user 5 never liked photo 1 in the sample stores. -/
theorem unlike_not_liked_witness :
    Mongo.unlikePhoto sampleMongo 1 5
      = .ok (Mongo.savePhoto sampleMongo samplePhoto, samplePhoto.likes.length) ∧
    Mongo.findPhoto (Mongo.savePhoto sampleMongo samplePhoto) 1 = some samplePhoto ∧
    Sql.unlikePhoto sampleSql 1 5 = (sampleSql, Sql.likesCount sampleSql 1) :=
  unlike_not_liked sampleMongo sampleSql 1 5 samplePhoto (by rfl) (by decide) (by decide)

theorem authRequired_error_status (verify : String → Option UserId) (hdr : Option String)
    (st : Nat) (msg : String)
    (h : authRequired verify hdr = .error (st, msg)) : st = 401 := by
  cases hdr with
  | none =>
    simp only [authRequired, Except.error.injEq, Prod.mk.injEq] at h
    exact h.1.symm
  | some hd =>
    simp only [authRequired] at h
    by_cases he : hd = ""
    · rw [if_pos he] at h
      simp only [Except.error.injEq, Prod.mk.injEq] at h
      exact h.1.symm
    · rw [if_neg he] at h
      by_cases ht : headerToken hd = ""
      · rw [if_pos ht] at h
        simp only [Except.error.injEq, Prod.mk.injEq] at h
        exact h.1.symm
      · rw [if_neg ht] at h
        split at h
        · simp only [Except.error.injEq, Prod.mk.injEq] at h
          exact h.1.symm
        · simp at h

/-- C4 counterexample: in the document variant a request with a valid
bearer token unliking a nonexistent photo id is answered 404, refuting
"succeeds with 200 for any photo id whatsoever / never 404". -/
theorem unlike_route_404_counterexample :
    Mongo.routeUnlike sampleVerify (some "Bearer tok") sampleMongo 99
      = (sampleMongo, 404, none) := by
  rfl

/-- C4 (amended): with a valid token the relational variant always answers
200 plus a like count, for any photo id, and every guard failure is 401 in
both variants; but the document variant answers 404 when the photo id is
absent, and 200 only for stored photos. -/
theorem unlike_route_status
    (verify : String → Option UserId) (hdr : Option String)
    (t : SqlState) (s : MongoState) (pid : PhotoId) :
    (∀ uid, authRequired verify hdr = .ok uid →
      Sql.routeUnlike verify hdr t pid
        = ((Sql.unlikePhoto t pid uid).1, 200, some (Sql.unlikePhoto t pid uid).2)) ∧
    (∀ st msg, authRequired verify hdr = .error (st, msg) →
      st = 401 ∧ Sql.routeUnlike verify hdr t pid = (t, st, none) ∧
      Mongo.routeUnlike verify hdr s pid = (s, st, none)) ∧
    (∀ uid, authRequired verify hdr = .ok uid → Mongo.findPhoto s pid = none →
      Mongo.routeUnlike verify hdr s pid = (s, 404, none)) ∧
    (∀ uid photo, authRequired verify hdr = .ok uid → Mongo.findPhoto s pid = some photo →
      (Mongo.routeUnlike verify hdr s pid).2.1 = 200) := by
  refine ⟨?_, ?_, ?_, ?_⟩
  · intro uid hok
    unfold Sql.routeUnlike
    simp [hok]
  · intro st msg herr
    refine ⟨authRequired_error_status verify hdr st msg herr, ?_, ?_⟩
    · unfold Sql.routeUnlike
      simp [herr]
    · unfold Mongo.routeUnlike
      simp [herr]
  · intro uid hok hnone
    have hun : Mongo.unlikePhoto s pid uid = .error (404, "Fotó nem található") := by
      unfold Mongo.unlikePhoto
      simp [hnone]
    unfold Mongo.routeUnlike
    simp [hok, hun]
  · intro uid photo hok hfind
    have hun : Mongo.unlikePhoto s pid uid
        = .ok (Mongo.savePhoto s
            { photo with likes := photo.likes.filter (fun w => w != uid) },
          (photo.likes.filter (fun w => w != uid)).length) := by
      unfold Mongo.unlikePhoto
      simp [hfind]
    unfold Mongo.routeUnlike
    simp [hok, hun]

/-- Witness for C4 (amended): with the concrete valid token, unliking the
nonexistent photo 99 answers 200 in the relational variant and 404 in the
document variant. -/
theorem unlike_route_status_witness :
    Sql.routeUnlike sampleVerify (some "Bearer tok") sampleSql 99
      = ((Sql.unlikePhoto sampleSql 99 0).1, 200, some (Sql.unlikePhoto sampleSql 99 0).2) ∧
    Mongo.routeUnlike sampleVerify (some "Bearer tok") sampleMongo 99
      = (sampleMongo, 404, none) :=
  ⟨(unlike_route_status sampleVerify (some "Bearer tok") sampleSql sampleMongo 99).1
      0 (by rfl),
   (unlike_route_status sampleVerify (some "Bearer tok") sampleSql sampleMongo 99).2.2.1
      0 (by rfl) (by rfl)⟩

/-- C5: a login whose identifier matches a stored user but whose password
fails verification returns exactly the same status and error body as a
login whose identifier matches no stored user, in both variants. -/
theorem login_wrong_password_indistinguishable
    (compare : String → String → Bool) (sign : UserId → String)
    (s : MongoState) (t : SqlState) (ident pw ident2 : String)
    (hid : ident ≠ "") (hpw : pw ≠ "") (hid2 : ident2 ≠ "")
    (u : MUser) (hu : Mongo.findUser s ident = some u)
    (hbad : compare pw u.passwordHash = false)
    (hnone : Mongo.findUser s ident2 = none)
    (v : SUser) (hv : Sql.findUser t ident = some v)
    (hbad' : compare pw v.passwordHash = false)
    (hnone' : Sql.findUser t ident2 = none) :
    Mongo.login compare sign s ident pw = (401, .err "Hibás belépési adatok") ∧
    Mongo.login compare sign s ident pw = Mongo.login compare sign s ident2 pw ∧
    Sql.login compare sign t ident pw = (401, .err "Hibás belépési adatok") ∧
    Sql.login compare sign t ident pw = Sql.login compare sign t ident2 pw := by
  have h1 : Mongo.login compare sign s ident pw = (401, .err "Hibás belépési adatok") := by
    unfold Mongo.login
    rw [if_neg (by simp [hid, hpw])]
    simp [hu, hbad]
  have h2 : Mongo.login compare sign s ident2 pw = (401, .err "Hibás belépési adatok") := by
    unfold Mongo.login
    rw [if_neg (by simp [hid2, hpw])]
    simp [hnone]
  have h3 : Sql.login compare sign t ident pw = (401, .err "Hibás belépési adatok") := by
    unfold Sql.login
    rw [if_neg (by simp [hid, hpw])]
    simp [hv, hbad']
  have h4 : Sql.login compare sign t ident2 pw = (401, .err "Hibás belépési adatok") := by
    unfold Sql.login
    rw [if_neg (by simp [hid2, hpw])]
    simp [hnone']
  exact ⟨h1, h1.trans h2.symm, h3, h3.trans h4.symm⟩

/-- Witness for C5: wrong password for the stored `alice` versus the
unknown identifier `bob` in the sample stores. -/
theorem login_wrong_password_indistinguishable_witness :
    Mongo.login sampleCompare sampleSign sampleMongo "alice" "wrong"
      = (401, .err "Hibás belépési adatok") ∧
    Mongo.login sampleCompare sampleSign sampleMongo "alice" "wrong"
      = Mongo.login sampleCompare sampleSign sampleMongo "bob" "wrong" ∧
    Sql.login sampleCompare sampleSign sampleSql "alice" "wrong"
      = (401, .err "Hibás belépési adatok") ∧
    Sql.login sampleCompare sampleSign sampleSql "alice" "wrong"
      = Sql.login sampleCompare sampleSign sampleSql "bob" "wrong" :=
  login_wrong_password_indistinguishable sampleCompare sampleSign sampleMongo sampleSql
    "alice" "wrong" "bob" (by decide) (by decide) (by decide)
    ⟨0, "alice", "a@x.com", "h"⟩ (by decide) (by decide) (by decide)
    ⟨1, "alice", "a@x.com", "h"⟩ (by decide) (by decide) (by decide)

/-- C6: registering when some stored user already holds the email — or the
username — fails with 409 and leaves the store unchanged, whatever the
other fields are, in both variants. -/
theorem register_duplicate_409
    (hash : String → String) (s : MongoState) (t : SqlState)
    (username email password : String)
    (hu : username ≠ "") (he : email ≠ "") (hp : password ≠ "")
    (hdupM : ∃ w ∈ s.users, w.email = email ∨ w.username = username)
    (hdupS : ∃ w ∈ t.users, w.email = email ∨ w.username = username) :
    Mongo.register hash s username email password = (s, 409) ∧
    Sql.register hash t username email password = (t, 409) := by
  constructor
  · unfold Mongo.register
    rw [if_neg (by simp [hu, he, hp])]
    have hany : s.users.any (fun w => w.email == email || w.username == username) = true := by
      obtain ⟨w, hw, hcase⟩ := hdupM
      refine List.any_eq_true.mpr ⟨w, hw, ?_⟩
      rcases hcase with h1 | h1 <;> simp [h1]
    rw [if_pos hany]
  · unfold Sql.register
    rw [if_neg (by simp [hu, he, hp])]
    have hany : t.users.any (fun w => w.email == email || w.username == username) = true := by
      obtain ⟨w, hw, hcase⟩ := hdupS
      refine List.any_eq_true.mpr ⟨w, hw, ?_⟩
      rcases hcase with h1 | h1 <;> simp [h1]
    rw [if_pos hany]

/-- Witness for C6: re-registering `alice`'s email under the fresh
username `bob` is answered 409 and changes nothing, in both stores. -/
theorem register_duplicate_409_witness :
    Mongo.register sampleHash sampleMongo "bob" "a@x.com" "pw456" = (sampleMongo, 409) ∧
    Sql.register sampleHash sampleSql "bob" "a@x.com" "pw456" = (sampleSql, 409) :=
  register_duplicate_409 sampleHash sampleMongo sampleSql "bob" "a@x.com" "pw456"
    (by decide) (by decide) (by decide)
    ⟨⟨0, "alice", "a@x.com", "h"⟩, by decide, Or.inl (by decide)⟩
    ⟨⟨1, "alice", "a@x.com", "h"⟩, by decide, Or.inl (by decide)⟩

/-- C7 counterexample: the document variant's success response is the
bare comment (author id only), not a comment enriched with the author's
identity — two stores that differ only in the author's username/email get
the identical response to the same request, while the relational
variant's joined response does change with them. -/
theorem createComment_enrichment_counterexample :
    (Mongo.createComment sampleMongo 1 0 (some "szép")).2 = .ok ⟨2, 1, 0, "szép", 1⟩ ∧
    (Mongo.createComment sampleMongoOtherUser 1 0 (some "szép")).2
      = .ok ⟨2, 1, 0, "szép", 1⟩ ∧
    (Sql.createComment sampleSql 1 1 (some "szép")).2
      = .ok (some ⟨1, "szép", 1, 1, "alice", "a@x.com"⟩) ∧
    (Sql.createComment sampleSqlOtherUser 1 1 (some "szép")).2
      = .ok (some ⟨1, "szép", 1, 1, "carol", "c@x.com"⟩) :=
  ⟨rfl, rfl, rfl, rfl⟩

/-- C7 (amended): creating a comment fails 400 when `text` is missing or
empty, fails 404 when the text is non-empty but the photo is absent, and
otherwise appends exactly one comment referencing that photo and author
and returns it, leaving the rest of the state unchanged — joined with the
author's username/email in the relational variant, but as the bare
comment document (author id only, no identity enrichment) in the
document variant. -/
theorem createComment_cases (s : MongoState) (t : SqlState)
    (pid : PhotoId) (uid : UserId) :
    (∀ text, text = none ∨ text = some "" →
      Mongo.createComment s pid uid text = (s, .error (400, "text kötelező")) ∧
      Sql.createComment t pid uid text = (t, .error (400, "text kötelező"))) ∧
    (∀ tx, tx ≠ "" → Mongo.findPhoto s pid = none →
      Mongo.createComment s pid uid (some tx) = (s, .error (404, "Fotó nem található"))) ∧
    (∀ tx, tx ≠ "" → Sql.photoExists t pid = false →
      Sql.createComment t pid uid (some tx) = (t, .error (404, "Fotó nem található"))) ∧
    (∀ tx photo, tx ≠ "" → Mongo.findPhoto s pid = some photo →
      Mongo.createComment s pid uid (some tx)
        = ({ s with comments := s.comments ++ [⟨s.nextId, photo.id, uid, tx, s.now⟩],
                    nextId := s.nextId + 1, now := s.now + 1 },
           .ok ⟨s.nextId, photo.id, uid, tx, s.now⟩)) ∧
    (∀ tx, tx ≠ "" → Sql.photoExists t pid = true →
      Sql.createComment t pid uid (some tx)
        = ({ t with comments := t.comments ++ [⟨t.nextCommentId, pid, uid, tx, t.now⟩],
                    nextCommentId := t.nextCommentId + 1, now := t.now + 1 },
           .ok ((t.users.find? (fun u => u.id == uid)).map
             (fun u => SEnrichedComment.mk t.nextCommentId tx t.now u.id u.username
               u.email)))) := by
  refine ⟨?_, ?_, ?_, ?_, ?_⟩
  · rintro text (rfl | rfl)
    · exact ⟨rfl, rfl⟩
    · constructor
      · unfold Mongo.createComment
        simp
      · unfold Sql.createComment
        simp
  · intro tx htx hnone
    unfold Mongo.createComment
    simp [htx, hnone]
  · intro tx htx hfalse
    unfold Sql.createComment
    simp [htx, hfalse]
  · intro tx photo htx hfind
    unfold Mongo.createComment
    simp [htx, hfind]
  · intro tx htx htrue
    unfold Sql.createComment
    simp [htx, htrue]

/-- Witness for C7: a concrete comment on the stored photo 1 in both
sample stores. -/
theorem createComment_cases_witness :
    Mongo.createComment sampleMongo 1 0 (some "szép")
      = ({ sampleMongo with comments := [⟨2, 1, 0, "szép", 1⟩], nextId := 3, now := 2 },
         .ok ⟨2, 1, 0, "szép", 1⟩) ∧
    Sql.createComment sampleSql 1 1 (some "szép")
      = ({ sampleSql with comments := [⟨1, 1, 1, "szép", 1⟩], nextCommentId := 2, now := 2 },
         .ok (some ⟨1, "szép", 1, 1, "alice", "a@x.com"⟩)) := by
  constructor
  · have h := (createComment_cases sampleMongo sampleSql 1 0).2.2.2.1 "szép" samplePhoto
      (by decide) (by rfl)
    exact h.trans (by rfl)
  · have h := (createComment_cases sampleMongo sampleSql 1 1).2.2.2.2 "szép"
      (by decide) (by rfl)
    exact h.trans (by rfl)

/-- C8: with at least ten stored photos, page 2 at limit 5 returns exactly
the photos ranked 6–10 of the newest-first ordering, and `total` equals
the full unfiltered photo count for every page and limit, in both
variants. -/
theorem listPhotos_pagination
    (s : MongoState) (t : SqlState)
    (hs : 10 ≤ s.photos.length) (ht : 10 ≤ t.photos.length) :
    ((Mongo.listPhotos s 2 5).items.length = 5 ∧
     (∀ i, i < 5 → (Mongo.listPhotos s 2 5).items[i]?
        = (Mongo.sortByCreatedDesc s.photos)[5 + i]?)) ∧
    (∀ page limit, (Mongo.listPhotos s page limit).total = s.photos.length) ∧
    (((Sql.listPhotos t 2 5).items.map Prod.fst).length = 5 ∧
     (∀ i, i < 5 → ((Sql.listPhotos t 2 5).items.map Prod.fst)[i]?
        = (Sql.sortByCreatedDesc t.photos)[5 + i]?)) ∧
    (∀ page limit, (Sql.listPhotos t page limit).total = t.photos.length) := by
  have hmlen : (Mongo.sortByCreatedDesc s.photos).length = s.photos.length := by
    unfold Mongo.sortByCreatedDesc
    exact List.length_mergeSort ..
  have hslen : (Sql.sortByCreatedDesc t.photos).length = t.photos.length := by
    unfold Sql.sortByCreatedDesc
    exact List.length_mergeSort ..
  refine ⟨⟨?_, ?_⟩, fun page limit => rfl, ⟨?_, ?_⟩, fun page limit => rfl⟩
  · show (((Mongo.sortByCreatedDesc s.photos).drop 5).take 5).length = 5
    simp [hmlen]
    omega
  · intro i hi
    show (((Mongo.sortByCreatedDesc s.photos).drop 5).take 5)[i]? = _
    rw [List.getElem?_take, if_pos hi, List.getElem?_drop]
  · show ((((Sql.sortByCreatedDesc t.photos).drop 5).take 5).map
      (fun p : SPhoto => (p, Sql.likesCount t p.id)) |>.map Prod.fst).length = 5
    simp [hslen]
    omega
  · intro i hi
    show ((((Sql.sortByCreatedDesc t.photos).drop 5).take 5).map
      (fun p : SPhoto => (p, Sql.likesCount t p.id)) |>.map Prod.fst)[i]? = _
    simp only [List.map_map]
    have hcomp : (Prod.fst ∘ fun p : SPhoto => (p, Sql.likesCount t p.id)) = id := rfl
    rw [hcomp, List.map_id]
    rw [List.getElem?_take, if_pos hi, List.getElem?_drop]

/-- Witness for C8: the ten-photo stores. -/
theorem listPhotos_pagination_witness :
    ((Mongo.listPhotos tenMongo 2 5).items.length = 5 ∧
     (∀ i, i < 5 → (Mongo.listPhotos tenMongo 2 5).items[i]?
        = (Mongo.sortByCreatedDesc tenMongo.photos)[5 + i]?)) ∧
    (∀ page limit, (Mongo.listPhotos tenMongo page limit).total = tenMongo.photos.length) ∧
    (((Sql.listPhotos tenSql 2 5).items.map Prod.fst).length = 5 ∧
     (∀ i, i < 5 → ((Sql.listPhotos tenSql 2 5).items.map Prod.fst)[i]?
        = (Sql.sortByCreatedDesc tenSql.photos)[5 + i]?)) ∧
    (∀ page limit, (Sql.listPhotos tenSql page limit).total = tenSql.photos.length) :=
  listPhotos_pagination tenMongo tenSql (by decide) (by decide)

/-- C9 counterexample: the query value `page=abc` parses to NaN
(`parseInt("abc", 10)`), not to 1, so the request is not handled as if
`page=1` had been supplied — the response echoes this parsed page and the
skip offset is computed from it, while an absent parameter does give 1. -/
theorem listPhotos_default_counterexample :
    parsePageParam (some "abc") = none ∧
    parsePageParam (some "abc") ≠ parsePageParam none ∧
    parsePageParam none = some 1 := by
  decide

/-- C9 (amended): an absent or empty page/limit parameter defaults to 1
and 10 respectively, and a value with a parsable leading integer parses to
that integer; but a value with no parsable leading integer yields NaN
rather than the default, so it is not treated as `page=1` / `limit=10`. -/
theorem listPhotos_param_defaults :
    parsePageParam none = some 1 ∧ parseLimitParam none = some 10 ∧
    parsePageParam (some "") = some 1 ∧ parseLimitParam (some "") = some 10 ∧
    parsePageParam (some "2") = some 2 ∧ parseLimitParam (some "5") = some 5 ∧
    parsePageParam (some "abc") = none ∧ parseLimitParam (some "xyz") = none := by
  decide

/-- C10 counterexample: the header `"Basic  tok"` (two spaces) has two
whitespace-separated parts and its second part verifies, so the claim
predicts acceptance; but the guard splits on single spaces, reads the
empty second field, and rejects with 401. -/
theorem authRequired_whitespace_counterexample :
    claimAuthAccepts sampleVerify (some "Basic  tok") = true ∧
    authRequired sampleVerify (some "Basic  tok") = .error (401, "Hiányzó token") := by
  exact ⟨by decide, by rfl⟩

/-- C10 (amended): the guard never inspects the authorization scheme: it
accepts exactly when the header, split on the single space character, has
a nonempty second field that verifies as a valid unexpired token (so
`Basic <valid-token>` passes), and a missing header, a bare scheme, or an
invalid token yield 401 without reaching the handler. -/
theorem authRequired_accepts_iff (verify : String → Option UserId) (hdr : Option String) :
    (∃ uid, authRequired verify hdr = .ok uid) ↔
      (∃ h, hdr = some h ∧ headerToken h ≠ "" ∧
        (verify (headerToken h)).isSome = true) := by
  cases hdr with
  | none =>
    constructor
    · rintro ⟨uid, hok⟩
      simp [authRequired] at hok
    · rintro ⟨h, heq, -, -⟩
      cases heq
  | some h =>
    by_cases he : h = ""
    · subst he
      constructor
      · rintro ⟨uid, hok⟩
        simp only [authRequired, if_pos rfl] at hok
        cases hok
      · rintro ⟨h2, heq, hne, -⟩
        cases heq
        exact absurd (by decide) hne
    · by_cases ht : headerToken h = ""
      · constructor
        · rintro ⟨uid, hok⟩
          simp only [authRequired, if_neg he, if_pos ht] at hok
          cases hok
        · rintro ⟨h2, heq, hne, -⟩
          cases heq
          exact absurd ht hne
      · cases hv : verify (headerToken h) with
        | none =>
          constructor
          · rintro ⟨uid, hok⟩
            simp only [authRequired, if_neg he, if_neg ht, hv] at hok
            cases hok
          · rintro ⟨h2, heq, -, hsome⟩
            cases heq
            rw [hv] at hsome
            cases hsome
        | some uid =>
          constructor
          · intro _
            exact ⟨h, rfl, ht, by rw [hv]; rfl⟩
          · intro _
            refine ⟨uid, ?_⟩
            simp only [authRequired, if_neg he, if_neg ht, hv]

end PhotoShare
